import Mathlib

/-!
Shallow embedding of `server/firestore.py`: a wrapper around the Cloud
Firestore document database (`Firestore`) and an oauth2client storage
adapter (`GoogleCalendarStorage`).

The document database is modelled as explicit state: three collections,
each an association list from document id to a field map.  Every
operation of the Python class becomes a function taking the database
state and returning its result together with the successor state and the
log lines it emits.  Python exceptions become `Except`: `DataError`
raised by the code itself, `KeyError` raised by `DocumentSnapshot.get`
on an absent field, and the `ValueError` that `OAuth2Credentials.from_json`
raises on an unparseable blob.  The external collaborators
(`OAuth2Credentials` of oauth2client and the HTTP token endpoint) are
modelled from their documented behaviour: `from_json` / `to_json`
(de)serialize the token fields, `access_token_expired` is true when the
credential is marked invalid or its expiry has passed, and
`refresh(http)` performs one token-endpoint exchange whose outcome we
pass in as an oracle (`RefreshResponse`), raising
`HttpAccessTokenRefreshError` on failure.
-/

namespace FirestorePy

/-- Severity of a `logging` call (`info` / `warning` / `error`). -/
inductive LogLevel
  | info
  | warning
  | error
deriving DecidableEq, Repr

/-- One emitted log line. -/
abbrev LogEntry := LogLevel × String

/-- The JSON payload of a serialized `OAuth2Credentials`: the fields that
`OAuth2Credentials.to_json` writes and `from_json` restores (the storage
back-reference is not serialized). -/
structure CredSer where
  access_token : String
  refresh_token : Option String
  token_expiry : Option Nat
  invalid : Bool
deriving DecidableEq, Repr

/-- A field value stored in a document.  `blob` is a string that parses
as serialized credentials; `nat` and `str` cover ordinary application
data, and a `str` in the credentials slot plays the role of an
unparseable JSON string. -/
inductive Value
  | nat (n : Nat)
  | str (s : String)
  | blob (s : CredSer)
deriving DecidableEq, Repr

/-- A document: a finite field map, as an association list. -/
abbrev Fields := List (String × Value)

/-- Lookup in an association list (first binding wins). -/
def lookupKey {α : Type} : List (String × α) → String → Option α
  | [], _ => none
  | (k, v) :: rest, key => if k = key then some v else lookupKey rest key

/-- Insert or overwrite a binding in an association list. -/
def insertKey {α : Type} : List (String × α) → String → α → List (String × α)
  | [], key, v => [(key, v)]
  | (k, w) :: rest, key, v =>
    if k = key then (key, v) :: rest else (k, w) :: insertKey rest key v

/-- Remove every binding of a key from an association list. -/
def removeKey {α : Type} : List (String × α) → String → List (String × α)
  | [], _ => []
  | (k, w) :: rest, key =>
    if k = key then removeKey rest key else (k, w) :: removeKey rest key

/-- Python exceptions that can escape the embedded operations:
`DataError` (defined at the bottom of firestore.py), Python's `KeyError`
(raised by `DocumentSnapshot.get` when the named field is absent), and
the `ValueError` that `OAuth2Credentials.from_json` raises on content
that is not a serialized credential. -/
inductive StoreError
  | dataError (msg : String)
  | keyError (field : String)
  | valueError
deriving DecidableEq, Repr

/-- The in-memory `oauth2client.client.OAuth2Credentials` object, reduced
to the fields this module reads or writes: the tokens, the expiry, the
`invalid` flag, and whether `set_store` has attached a storage
back-reference (not serialized by `to_json`). -/
structure OAuth2Credentials where
  access_token : String
  refresh_token : Option String
  token_expiry : Option Nat
  invalid : Bool
  store : Bool
deriving DecidableEq, Repr

/-- `OAuth2Credentials.to_json`: serialize the token fields (the storage
back-reference is dropped). -/
def OAuth2Credentials.to_json (c : OAuth2Credentials) : CredSer :=
  ⟨c.access_token, c.refresh_token, c.token_expiry, c.invalid⟩

/-- `OAuth2Credentials.from_json`: parse a stored field value.  A value
holding serialized credentials yields the credential object (with no
store attached); any other content raises `ValueError` from the JSON
parser. -/
def OAuth2Credentials.from_json : Value → Except StoreError OAuth2Credentials
  | Value.blob s => Except.ok ⟨s.access_token, s.refresh_token, s.token_expiry, s.invalid, false⟩
  | _ => Except.error StoreError.valueError

/-- `OAuth2Credentials.set_store(storage)`: attach a storage
back-reference so future refreshes can persist through it. -/
def OAuth2Credentials.set_store (c : OAuth2Credentials) : OAuth2Credentials :=
  { c with store := true }

/-- `OAuth2Credentials.access_token_expired`: true when the credential is
marked invalid, or when it has an expiry that is not after the current
time `now`. -/
def OAuth2Credentials.access_token_expired (c : OAuth2Credentials) (now : Nat) : Bool :=
  if c.invalid then true
  else
    match c.token_expiry with
    | none => false
    | some e => decide (e ≤ now)

/-- The token endpoint's answer to one refresh request, passed in as an
oracle: either a new token response (access token, optional rotated
refresh token, new expiry) or an `HttpAccessTokenRefreshError`. -/
inductive RefreshResponse
  | success (access_token : String) (refresh_token : Option String) (token_expiry : Option Nat)
  | failure (msg : String)
deriving DecidableEq, Repr

/-- `OAuth2Credentials.refresh(http)`: one token-endpoint exchange.  On
success the access token, refresh token (kept when the response carries
none) and expiry are updated in place and `invalid` is cleared; on
failure `HttpAccessTokenRefreshError` is raised.  No persistence happens
here: at the one call site in firestore.py the credential was just built
by `from_json` and has no store attached. -/
def OAuth2Credentials.refresh (c : OAuth2Credentials) (resp : RefreshResponse) :
    Except String OAuth2Credentials :=
  match resp with
  | RefreshResponse.success a r e =>
      Except.ok { c with
        access_token := a
        refresh_token := match r with | some t => some t | none => c.refresh_token
        token_expiry := e
        invalid := false }
  | RefreshResponse.failure msg => Except.error msg

/-- The state of the Cloud Firestore database wrapped by the `Firestore`
class: three top-level collections, each mapping a document id to its
fields. -/
structure Firestore where
  api_keys : List (String × Fields)
  oauth_clients : List (String × Fields)
  users : List (String × Fields)
deriving DecidableEq, Repr

/-- `Firestore._api_key(service)`: fetch the `api_keys` document for the
service; raise `DataError` when the document does not exist, and return
the value of its `api_key` field (a missing field raises `KeyError` from
the snapshot). -/
def Firestore._api_key (db : Firestore) (service : String) : Except StoreError Value :=
  match lookupKey db.api_keys service with
  | none => Except.error (StoreError.dataError ("Missing API key for: " ++ service))
  | some doc =>
    match lookupKey doc "api_key" with
    | none => Except.error (StoreError.keyError "api_key")
    | some v => Except.ok v

/-- `Firestore.google_maps_api_key()`. -/
def Firestore.google_maps_api_key (db : Firestore) : Except StoreError Value :=
  db._api_key "google_maps"

/-- `Firestore.open_weather_api_key()`. -/
def Firestore.open_weather_api_key (db : Firestore) : Except StoreError Value :=
  db._api_key "open_weather"

/-- `Firestore.google_calendar_secrets()`: fetch the
`oauth_clients/google_calendar` document, raising `DataError` when
absent. -/
def Firestore.google_calendar_secrets (db : Firestore) : Except StoreError Fields :=
  match lookupKey db.oauth_clients "google_calendar" with
  | none => Except.error (StoreError.dataError "Missing Google Calendar secrets")
  | some secrets => Except.ok secrets

/-- `Firestore.user(key)`: fetch the user document, returning `none`
with a warning log when it does not exist. -/
def Firestore.user (db : Firestore) (key : String) : Option Fields × List LogEntry :=
  match lookupKey db.users key with
  | none => (none, [(LogLevel.warning, "User not found.")])
  | some u => (some u, [])

/-- Merge `data` into an existing field map: each field of `data`
overwrites or creates its slot, every other field is kept. -/
def mergeFields (old : Fields) (data : Fields) : Fields :=
  data.foldl (fun acc kv => insertKey acc kv.1 kv.2) old

/-- `Firestore.set_user(key, data)`: `document.set(data, merge=True)` —
merge `data` into the user document, creating the document when
absent. -/
def Firestore.set_user (db : Firestore) (key : String) (data : Fields) : Firestore :=
  match lookupKey db.users key with
  | none => { db with users := insertKey db.users key (mergeFields [] data) }
  | some old => { db with users := insertKey db.users key (mergeFields old data) }

/-- A value of an `update` payload: either an ordinary value or the
`DELETE_FIELD` sentinel marking removal of the field. -/
inductive FieldOp
  | set (v : Value)
  | delete
deriving DecidableEq, Repr

/-- Apply an `update` payload to a field map: ordinary values overwrite
or create their field, the `DELETE_FIELD` sentinel removes it. -/
def applyFieldOps : Fields → List (String × FieldOp) → Fields
  | fs, [] => fs
  | fs, (k, FieldOp.set v) :: rest => applyFieldOps (insertKey fs k v) rest
  | fs, (k, FieldOp.delete) :: rest => applyFieldOps (removeKey fs k) rest

/-- `Firestore.update_user(key, fields)`: when the user document does
not exist, log an error and do nothing; otherwise apply the update
payload to the document. -/
def Firestore.update_user (db : Firestore) (key : String) (fields : List (String × FieldOp)) :
    Firestore × List LogEntry :=
  match lookupKey db.users key with
  | none => (db, [(LogLevel.error, "User not found for update.")])
  | some u =>
    ({ db with users := insertKey db.users key (applyFieldOps u fields) }, [])

/-- `Firestore.update_google_calendar_credentials(key, credentials)`:
store the serialized credentials in the user's
`google_calendar_credentials` field via `update_user`. -/
def Firestore.update_google_calendar_credentials (db : Firestore) (key : String)
    (credentials : OAuth2Credentials) : Firestore × List LogEntry :=
  db.update_user key [("google_calendar_credentials", FieldOp.set (Value.blob credentials.to_json))]

/-- `Firestore.delete_google_calendar_credentials(key)`: remove the
user's `google_calendar_credentials` field via `update_user` and the
`DELETE_FIELD` sentinel. -/
def Firestore.delete_google_calendar_credentials (db : Firestore) (key : String) :
    Firestore × List LogEntry :=
  db.update_user key [("google_calendar_credentials", FieldOp.delete)]

instance {ε α : Type} [DecidableEq ε] [DecidableEq α] : DecidableEq (Except ε α) :=
  fun x y =>
    match x, y with
    | Except.ok a, Except.ok b =>
        if h : a = b then isTrue (by rw [h]) else isFalse (fun hh => h (Except.ok.inj hh))
    | Except.error a, Except.error b =>
        if h : a = b then isTrue (by rw [h]) else isFalse (fun hh => h (Except.error.inj hh))
    | Except.ok _, Except.error _ => isFalse (fun hh => Except.noConfusion hh)
    | Except.error _, Except.ok _ => isFalse (fun hh => Except.noConfusion hh)

/-- Everything a call to `Firestore.google_calendar_credentials` (or to
`locked_get`) produces: its return value or escaped exception, the
database state after the call, the log lines, and how many refresh
requests were sent to the token endpoint. -/
structure GetResult where
  result : Except StoreError (Option OAuth2Credentials)
  db : Firestore
  logs : List LogEntry
  refreshAttempts : Nat
deriving DecidableEq, Repr

/-- `Firestore.google_calendar_credentials(key)`, line by line:
look up the user (absent → `None`); read the
`google_calendar_credentials` field (absent → `KeyError`, caught: warn
and return `None`); `from_json` the blob (an unparseable blob raises
`ValueError`, which nothing catches); return any credential that is not
marked invalid (`from_json` never returns a false-y object, so the
`credentials and` guards always pass); otherwise, when
`access_token_expired` holds, try one refresh, returning the refreshed
object on success and catching `HttpAccessTokenRefreshError` on failure;
finally delete the stored blob and return `None`.  `now` fixes the
current time and `resp` the token endpoint's answer. -/
def Firestore.google_calendar_credentials (db : Firestore) (key : String)
    (now : Nat) (resp : RefreshResponse) : GetResult :=
  match db.user key with
  | (none, logs) => ⟨Except.ok none, db, logs, 0⟩
  | (some u, logs0) =>
    match lookupKey u "google_calendar_credentials" with
    | none =>
      ⟨Except.ok none, db,
       logs0 ++ [(LogLevel.warning, "Failed to load Google Calendar credentials.")], 0⟩
    | some json =>
      match OAuth2Credentials.from_json json with
      | Except.error e => ⟨Except.error e, db, logs0, 0⟩
      | Except.ok credentials =>
        if ¬ credentials.invalid then
          ⟨Except.ok (some credentials), db, logs0, 0⟩
        else if credentials.access_token_expired now then
          match credentials.refresh resp with
          | Except.ok refreshed =>
            ⟨Except.ok (some refreshed), db,
             logs0 ++ [(LogLevel.info, "Refreshing Google Calendar credentials.")], 1⟩
          | Except.error msg =>
            let d := db.delete_google_calendar_credentials key
            ⟨Except.ok none, d.1,
             logs0 ++ [(LogLevel.info, "Refreshing Google Calendar credentials."),
                       (LogLevel.warning, "Google Calendar refresh failed: " ++ msg),
                       (LogLevel.warning, "Deleting Google Calendar credentials.")] ++ d.2, 1⟩
        else
          let d := db.delete_google_calendar_credentials key
          ⟨Except.ok none, d.1,
           logs0 ++ [(LogLevel.warning, "Deleting Google Calendar credentials.")] ++ d.2, 0⟩

/-- The `GoogleCalendarStorage` adapter: an oauth2client `Storage` bound
to one user key at construction (the `Firestore` handle it builds is the
shared database state, threaded explicitly here). -/
structure GoogleCalendarStorage where
  key : String
deriving DecidableEq, Repr

/-- `GoogleCalendarStorage.locked_get()`: load (and possibly refresh)
the credentials; when a credential object comes back, attach this
storage via `set_store` before returning it.  Exceptions propagate. -/
def GoogleCalendarStorage.locked_get (s : GoogleCalendarStorage) (db : Firestore)
    (now : Nat) (resp : RefreshResponse) : GetResult :=
  let r := db.google_calendar_credentials s.key now resp
  match r.result with
  | Except.ok (some credentials) =>
      { r with result := Except.ok (some credentials.set_store) }
  | _ => r

/-- `GoogleCalendarStorage.locked_put(credentials)`: save the serialized
credentials through the facade. -/
def GoogleCalendarStorage.locked_put (s : GoogleCalendarStorage) (db : Firestore)
    (credentials : OAuth2Credentials) : Firestore × List LogEntry :=
  db.update_google_calendar_credentials s.key credentials

/-- `GoogleCalendarStorage.locked_delete()`: delete the credentials
through the facade. -/
def GoogleCalendarStorage.locked_delete (s : GoogleCalendarStorage) (db : Firestore) :
    Firestore × List LogEntry :=
  db.delete_google_calendar_credentials s.key

/-!
Association-list lemmas used throughout the development.
-/

theorem lookupKey_insertKey_self {α : Type} (l : List (String × α)) (k : String) (v : α) :
    lookupKey (insertKey l k v) k = some v := by
  induction l with
  | nil => simp [insertKey, lookupKey]
  | cons hd tl ih =>
    obtain ⟨k1, v1⟩ := hd
    by_cases h : k1 = k
    · simp [insertKey, lookupKey, h]
    · simp [insertKey, lookupKey, h, ih]

theorem lookupKey_insertKey_ne {α : Type} (l : List (String × α)) (k k2 : String) (v : α)
    (h : k2 ≠ k) : lookupKey (insertKey l k v) k2 = lookupKey l k2 := by
  have hks : ¬ k = k2 := fun hh => h hh.symm
  induction l with
  | nil => simp [insertKey, lookupKey, hks]
  | cons hd tl ih =>
    obtain ⟨k1, v1⟩ := hd
    by_cases h1 : k1 = k
    · subst h1
      simp [insertKey, lookupKey, hks]
    · simp only [insertKey, if_neg h1]
      by_cases h2 : k1 = k2
      · simp [lookupKey, h2]
      · simp [lookupKey, h2, ih]

theorem lookupKey_removeKey_self {α : Type} (l : List (String × α)) (k : String) :
    lookupKey (removeKey l k) k = none := by
  induction l with
  | nil => simp [removeKey, lookupKey]
  | cons hd tl ih =>
    obtain ⟨k1, v1⟩ := hd
    by_cases h : k1 = k
    · simp [removeKey, h, ih]
    · simp [removeKey, lookupKey, h, ih]

theorem lookupKey_removeKey_ne {α : Type} (l : List (String × α)) (k k2 : String)
    (h : k2 ≠ k) : lookupKey (removeKey l k) k2 = lookupKey l k2 := by
  have hks : ¬ k = k2 := fun hh => h hh.symm
  induction l with
  | nil => simp [removeKey]
  | cons hd tl ih =>
    obtain ⟨k1, v1⟩ := hd
    by_cases h1 : k1 = k
    · subst h1
      simp [removeKey, lookupKey, hks, ih]
    · by_cases h2 : k1 = k2
      · simp [removeKey, lookupKey, h1, h2, h]
      · simp [removeKey, lookupKey, h1, h2, ih]

/-!
Claim theorems.
-/

/-- C1 counterexample: a stored credential that is time-expired (expiry
5, current time 10) but not marked invalid, with a token endpoint that
errors.  `locked_get` returns the stale credential itself rather than
null, performs no refresh call, and leaves the database — including the
stored blob — unchanged, contradicting the claim that it returns null
and deletes the blob. -/
theorem refresh_failure_cleanup_cex :
    (GoogleCalendarStorage.locked_get ⟨"u"⟩
        ⟨[], [], [("u", [("google_calendar_credentials",
            Value.blob ⟨"tok", some "rt", some 5, false⟩)])]⟩
        10 (RefreshResponse.failure "boom")).result =
      Except.ok (some ⟨"tok", some "rt", some 5, false, true⟩) ∧
    (GoogleCalendarStorage.locked_get ⟨"u"⟩
        ⟨[], [], [("u", [("google_calendar_credentials",
            Value.blob ⟨"tok", some "rt", some 5, false⟩)])]⟩
        10 (RefreshResponse.failure "boom")).result ≠ Except.ok none ∧
    (GoogleCalendarStorage.locked_get ⟨"u"⟩
        ⟨[], [], [("u", [("google_calendar_credentials",
            Value.blob ⟨"tok", some "rt", some 5, false⟩)])]⟩
        10 (RefreshResponse.failure "boom")).db =
      ⟨[], [], [("u", [("google_calendar_credentials",
          Value.blob ⟨"tok", some "rt", some 5, false⟩)])]⟩ :=
  ⟨rfl, by decide, rfl⟩

/-- C1 (amended): for every stored credential marked invalid — the only
kind the refresh branch can reach, and one that always counts as
expired — if the refresh call against the OAuth2 token endpoint fails
with a token-endpoint error, then `locked_get` returns null, the stored
credential blob is deleted from the user record, and a subsequent
`locked_get` on the same key also returns null.  (A credential that is
merely time-expired but not marked invalid is instead returned as-is,
with no refresh and no deletion.) -/
theorem refresh_failure_cleanup (db : Firestore) (key : String) (u : Fields)
    (s : CredSer) (msg : String) (now : Nat)
    (hu : lookupKey db.users key = some u)
    (hf : lookupKey u "google_calendar_credentials" = some (Value.blob s))
    (hinv : s.invalid = true) :
    (GoogleCalendarStorage.locked_get ⟨key⟩ db now (RefreshResponse.failure msg)).result =
      Except.ok none ∧
    (GoogleCalendarStorage.locked_get ⟨key⟩ db now (RefreshResponse.failure msg)).db =
      { db with users := insertKey db.users key (removeKey u "google_calendar_credentials") } ∧
    ∀ now2 resp2,
      (GoogleCalendarStorage.locked_get ⟨key⟩
          { db with users := insertKey db.users key (removeKey u "google_calendar_credentials") }
          now2 resp2).result = Except.ok none := by
  have hdel : Firestore.delete_google_calendar_credentials db key =
      ({ db with users := insertKey db.users key (removeKey u "google_calendar_credentials") },
       []) := by
    simp [Firestore.delete_google_calendar_credentials, Firestore.update_user, hu, applyFieldOps]
  refine ⟨?_, ?_, ?_⟩
  · simp [GoogleCalendarStorage.locked_get, Firestore.google_calendar_credentials,
      Firestore.user, hu, hf, OAuth2Credentials.from_json, hinv,
      OAuth2Credentials.access_token_expired, OAuth2Credentials.refresh, hdel]
  · simp [GoogleCalendarStorage.locked_get, Firestore.google_calendar_credentials,
      Firestore.user, hu, hf, OAuth2Credentials.from_json, hinv,
      OAuth2Credentials.access_token_expired, OAuth2Credentials.refresh, hdel]
  · intro now2 resp2
    simp [GoogleCalendarStorage.locked_get, Firestore.google_calendar_credentials,
      Firestore.user, lookupKey_insertKey_self, lookupKey_removeKey_self]

/-- C1 witness: the amended theorem applied to a concrete store holding
an invalid credential for user `u`. -/
theorem refresh_failure_cleanup_witness :
    (GoogleCalendarStorage.locked_get ⟨"u"⟩
        ⟨[], [], [("u", [("google_calendar_credentials",
            Value.blob ⟨"tok", some "rt", some 5, true⟩)])]⟩
        10 (RefreshResponse.failure "boom")).result = Except.ok none :=
  (refresh_failure_cleanup
      ⟨[], [], [("u", [("google_calendar_credentials",
          Value.blob ⟨"tok", some "rt", some 5, true⟩)])]⟩
      "u" [("google_calendar_credentials", Value.blob ⟨"tok", some "rt", some 5, true⟩)]
      ⟨"tok", some "rt", some 5, true⟩ "boom" 10 rfl rfl rfl).1

/-- C2 counterexample: a stored credential that is time-expired (expiry
5, current time 10) but not marked invalid, with a token endpoint ready
to answer with a fresh token `new`.  `locked_get` performs zero refresh
calls (not exactly one) and returns the stale stored credential with its
old token, not a refreshed one, leaving the store untouched: valid
credentials are returned before the expiry check is ever reached. -/
theorem expiry_refresh_cex :
    (GoogleCalendarStorage.locked_get ⟨"u"⟩
        ⟨[], [], [("u", [("google_calendar_credentials",
            Value.blob ⟨"tok", some "rt", some 5, false⟩)])]⟩
        10 (RefreshResponse.success "new" none (some 99))).refreshAttempts = 0 ∧
    (GoogleCalendarStorage.locked_get ⟨"u"⟩
        ⟨[], [], [("u", [("google_calendar_credentials",
            Value.blob ⟨"tok", some "rt", some 5, false⟩)])]⟩
        10 (RefreshResponse.success "new" none (some 99))).result =
      Except.ok (some ⟨"tok", some "rt", some 5, false, true⟩) ∧
    (GoogleCalendarStorage.locked_get ⟨"u"⟩
        ⟨[], [], [("u", [("google_calendar_credentials",
            Value.blob ⟨"tok", some "rt", some 5, false⟩)])]⟩
        10 (RefreshResponse.success "new" none (some 99))).db =
      ⟨[], [], [("u", [("google_calendar_credentials",
          Value.blob ⟨"tok", some "rt", some 5, false⟩)])]⟩ :=
  ⟨rfl, rfl, rfl⟩

/-- C2 (amended): for every stored credential marked invalid — the only
kind that reaches the expiry check, and one that always counts as
expired — `locked_get` attempts exactly one refresh against the token
endpoint, and when the endpoint returns a new token it returns the
refreshed credential object.  The new token is not persisted: the
database is unchanged by the call (the credential has no storage
back-reference attached at refresh time).  A credential that is not
marked invalid is returned before the expiry check, with no refresh. -/
theorem expiry_refresh (db : Firestore) (key : String) (u : Fields) (s : CredSer)
    (a : String) (rt : Option String) (e : Option Nat) (now : Nat)
    (hu : lookupKey db.users key = some u)
    (hf : lookupKey u "google_calendar_credentials" = some (Value.blob s))
    (hinv : s.invalid = true) :
    (GoogleCalendarStorage.locked_get ⟨key⟩ db now
        (RefreshResponse.success a rt e)).refreshAttempts = 1 ∧
    (GoogleCalendarStorage.locked_get ⟨key⟩ db now
        (RefreshResponse.success a rt e)).result =
      Except.ok (some ⟨a, (match rt with | some t => some t | none => s.refresh_token),
        e, false, true⟩) ∧
    (GoogleCalendarStorage.locked_get ⟨key⟩ db now
        (RefreshResponse.success a rt e)).db = db := by
  refine ⟨?_, ?_, ?_⟩ <;>
    simp [GoogleCalendarStorage.locked_get, Firestore.google_calendar_credentials,
      Firestore.user, hu, hf, OAuth2Credentials.from_json, hinv,
      OAuth2Credentials.access_token_expired, OAuth2Credentials.refresh,
      OAuth2Credentials.set_store]

/-- C2 witness: the amended theorem applied to a concrete store holding
an invalid credential, with the endpoint answering a new token. -/
theorem expiry_refresh_witness :
    (GoogleCalendarStorage.locked_get ⟨"u"⟩
        ⟨[], [], [("u", [("google_calendar_credentials",
            Value.blob ⟨"tok", some "rt", some 5, true⟩)])]⟩
        10 (RefreshResponse.success "new" none (some 99))).refreshAttempts = 1 :=
  (expiry_refresh
      ⟨[], [], [("u", [("google_calendar_credentials",
          Value.blob ⟨"tok", some "rt", some 5, true⟩)])]⟩
      "u" [("google_calendar_credentials", Value.blob ⟨"tok", some "rt", some 5, true⟩)]
      ⟨"tok", some "rt", some 5, true⟩ "new" none (some 99) 10 rfl rfl rfl).1

/-- C3 counterexample: a stored `google_calendar_credentials` field
holding the unparseable string `garbage`.  `locked_get` raises the
`from_json` parse error to the caller (nothing catches it) and deletes
nothing — the store is unchanged — contradicting the claim that it never
raises and deletes the blob. -/
theorem invalid_blob_cleanup_cex :
    (GoogleCalendarStorage.locked_get ⟨"u"⟩
        ⟨[], [], [("u", [("google_calendar_credentials", Value.str "garbage")])]⟩
        0 (RefreshResponse.failure "boom")).result =
      Except.error StoreError.valueError ∧
    (GoogleCalendarStorage.locked_get ⟨"u"⟩
        ⟨[], [], [("u", [("google_calendar_credentials", Value.str "garbage")])]⟩
        0 (RefreshResponse.failure "boom")).db =
      ⟨[], [], [("u", [("google_calendar_credentials", Value.str "garbage")])]⟩ :=
  ⟨rfl, rfl⟩

/-- C3 (amended): a stored blob that deserializes to a credential marked
invalid is deleted, with null returned and nothing raised, when its
(always-attempted) refresh fails; a stored blob that is unparseable
instead makes `locked_get` raise the parse error to the caller, deleting
nothing.  (And an invalid credential whose refresh succeeds is returned
refreshed rather than deleted.) -/
theorem invalid_blob_cleanup (db : Firestore) (key : String) (u : Fields)
    (msg : String) (now : Nat)
    (hu : lookupKey db.users key = some u) :
    (∀ s, lookupKey u "google_calendar_credentials" = some (Value.blob s) →
      s.invalid = true →
      (GoogleCalendarStorage.locked_get ⟨key⟩ db now
          (RefreshResponse.failure msg)).result = Except.ok none ∧
      (GoogleCalendarStorage.locked_get ⟨key⟩ db now
          (RefreshResponse.failure msg)).db =
        { db with
            users := insertKey db.users key (removeKey u "google_calendar_credentials") }) ∧
    (∀ g, lookupKey u "google_calendar_credentials" = some (Value.str g) →
      (GoogleCalendarStorage.locked_get ⟨key⟩ db now
          (RefreshResponse.failure msg)).result = Except.error StoreError.valueError ∧
      (GoogleCalendarStorage.locked_get ⟨key⟩ db now
          (RefreshResponse.failure msg)).db = db) := by
  constructor
  · intro s hf hinv
    constructor <;>
      simp [GoogleCalendarStorage.locked_get, Firestore.google_calendar_credentials,
        Firestore.user, hu, hf, OAuth2Credentials.from_json, hinv,
        OAuth2Credentials.access_token_expired, OAuth2Credentials.refresh,
        Firestore.delete_google_calendar_credentials, Firestore.update_user, applyFieldOps]
  · intro g hf
    constructor <;>
      simp [GoogleCalendarStorage.locked_get, Firestore.google_calendar_credentials,
        Firestore.user, hu, hf, OAuth2Credentials.from_json]

/-- C3 witness: the amended theorem applied to a concrete store holding
an invalid credential whose refresh fails. -/
theorem invalid_blob_cleanup_witness :
    (GoogleCalendarStorage.locked_get ⟨"u"⟩
        ⟨[], [], [("u", [("google_calendar_credentials",
            Value.blob ⟨"tok", none, some 5, true⟩)])]⟩
        10 (RefreshResponse.failure "boom")).result = Except.ok none :=
  ((invalid_blob_cleanup
      ⟨[], [], [("u", [("google_calendar_credentials",
          Value.blob ⟨"tok", none, some 5, true⟩)])]⟩
      "u" [("google_calendar_credentials", Value.blob ⟨"tok", none, some 5, true⟩)]
      "boom" 10 rfl).1 ⟨"tok", none, some 5, true⟩ rfl rfl).1

/-- C4 counterexample: `locked_put` for a key with no user document.
The write goes through `update_user`, which refuses to touch a
nonexistent document, so nothing is stored: afterwards there is still no
user document (and so no `google_calendar_credentials` field),
contradicting the claim that the field is created for every user
key. -/
theorem locked_put_creates_field_cex :
    (GoogleCalendarStorage.locked_put ⟨"u"⟩ ⟨[], [], []⟩
        ⟨"at", some "rt", some 100, false, false⟩).1 = ⟨[], [], []⟩ ∧
    lookupKey ((GoogleCalendarStorage.locked_put ⟨"u"⟩ ⟨[], [], []⟩
        ⟨"at", some "rt", some 100, false, false⟩).1).users "u" = none ∧
    (GoogleCalendarStorage.locked_put ⟨"u"⟩ ⟨[], [], []⟩
        ⟨"at", some "rt", some 100, false, false⟩).2 =
      [(LogLevel.error, "User not found for update.")] :=
  ⟨rfl, rfl, rfl⟩

/-- C4 (amended): for every key whose user document exists, `locked_put`
serializes the credential and writes it into the document's
`google_calendar_credentials` field via a partial update, creating the
field when it was previously absent and leaving every other field
unchanged.  When the user document does not exist the call is a logged
no-op (the write goes through `update_user`, not a merge-write that
could create the document). -/
theorem locked_put_creates_field (db : Firestore) (key : String) (u : Fields)
    (c : OAuth2Credentials)
    (hu : lookupKey db.users key = some u) :
    (GoogleCalendarStorage.locked_put ⟨key⟩ db c).1 =
      { db with
          users := insertKey db.users key
            (insertKey u "google_calendar_credentials" (Value.blob c.to_json)) } ∧
    lookupKey (insertKey u "google_calendar_credentials" (Value.blob c.to_json))
      "google_calendar_credentials" = some (Value.blob c.to_json) ∧
    (∀ f, f ≠ "google_calendar_credentials" →
      lookupKey (insertKey u "google_calendar_credentials" (Value.blob c.to_json)) f =
        lookupKey u f) := by
  refine ⟨?_, lookupKey_insertKey_self u "google_calendar_credentials" (Value.blob c.to_json),
    fun f hf => lookupKey_insertKey_ne u "google_calendar_credentials" f
      (Value.blob c.to_json) hf⟩
  simp [GoogleCalendarStorage.locked_put, Firestore.update_google_calendar_credentials,
    Firestore.update_user, hu, applyFieldOps]

/-- C4 witness: the amended theorem applied to a concrete store with an
existing user document that has no credential field yet. -/
theorem locked_put_creates_field_witness :
    (GoogleCalendarStorage.locked_put ⟨"u"⟩ ⟨[], [], [("u", [("n", Value.nat 3)])]⟩
        ⟨"at", some "rt", some 100, false, false⟩).1 =
      ⟨[], [], [("u", [("n", Value.nat 3), ("google_calendar_credentials",
          Value.blob ⟨"at", some "rt", some 100, false⟩)])]⟩ :=
  (locked_put_creates_field ⟨[], [], [("u", [("n", Value.nat 3)])]⟩ "u"
      [("n", Value.nat 3)] ⟨"at", some "rt", some 100, false, false⟩ rfl).1

/-- C5 counterexample: a round trip on an adapter whose key has no user
document.  `locked_put` is a no-op there, so the immediate `locked_get`
yields null rather than an equivalent credential object. -/
theorem credentials_roundtrip_cex :
    (GoogleCalendarStorage.locked_get ⟨"u"⟩
        (GoogleCalendarStorage.locked_put ⟨"u"⟩ ⟨[], [], []⟩
            ⟨"at", some "rt", some 100, false, false⟩).1
        0 (RefreshResponse.failure "boom")).result = Except.ok none ∧
    (GoogleCalendarStorage.locked_get ⟨"u"⟩
        (GoogleCalendarStorage.locked_put ⟨"u"⟩ ⟨[], [], []⟩
            ⟨"at", some "rt", some 100, false, false⟩).1
        0 (RefreshResponse.failure "boom")).result ≠
      Except.ok (some ⟨"at", some "rt", some 100, false, true⟩) :=
  ⟨rfl, by decide⟩

/-- C5 (amended): for every valid (not marked invalid) credential with a
non-expired access token, provided the user record exists, writing it
via `locked_put` and then reading via `locked_get` on the same adapter
yields an equivalent, valid credential object with the same tokens and
expiry (only the storage back-reference is attached), and the read
leaves the store as the write left it. -/
theorem credentials_roundtrip (db : Firestore) (key : String) (u : Fields)
    (c : OAuth2Credentials) (now : Nat) (resp : RefreshResponse)
    (hu : lookupKey db.users key = some u)
    (hinv : c.invalid = false)
    (_hexp : c.access_token_expired now = false) :
    (GoogleCalendarStorage.locked_get ⟨key⟩
        (GoogleCalendarStorage.locked_put ⟨key⟩ db c).1 now resp).result =
      Except.ok (some { c with store := true }) ∧
    (GoogleCalendarStorage.locked_get ⟨key⟩
        (GoogleCalendarStorage.locked_put ⟨key⟩ db c).1 now resp).db =
      (GoogleCalendarStorage.locked_put ⟨key⟩ db c).1 := by
  have hput : (GoogleCalendarStorage.locked_put ⟨key⟩ db c).1 =
      { db with
          users := insertKey db.users key
            (insertKey u "google_calendar_credentials" (Value.blob c.to_json)) } := by
    simp [GoogleCalendarStorage.locked_put, Firestore.update_google_calendar_credentials,
      Firestore.update_user, hu, applyFieldOps]
  rw [hput]
  constructor <;>
    simp [GoogleCalendarStorage.locked_get, Firestore.google_calendar_credentials,
      Firestore.user, lookupKey_insertKey_self, OAuth2Credentials.from_json,
      OAuth2Credentials.to_json, hinv, OAuth2Credentials.set_store]

/-- C5 witness: the amended theorem applied to a concrete store with an
existing user record and a valid, non-expired credential. -/
theorem credentials_roundtrip_witness :
    (GoogleCalendarStorage.locked_get ⟨"u"⟩
        (GoogleCalendarStorage.locked_put ⟨"u"⟩ ⟨[], [], [("u", [("n", Value.nat 3)])]⟩
            ⟨"at", some "rt", some 100, false, false⟩).1
        0 (RefreshResponse.failure "boom")).result =
      Except.ok (some ⟨"at", some "rt", some 100, false, true⟩) :=
  (credentials_roundtrip ⟨[], [], [("u", [("n", Value.nat 3)])]⟩ "u" [("n", Value.nat 3)]
      ⟨"at", some "rt", some 100, false, false⟩ 0 (RefreshResponse.failure "boom")
      rfl rfl rfl).1

/-- Case analysis helper: a credential fetch ends in exactly one of
three ways — null, a credential object, or the `ValueError` escaping
`from_json`.  In particular it can never raise `DataError`. -/
theorem google_calendar_credentials_result_cases (db : Firestore) (key : String)
    (now : Nat) (resp : RefreshResponse) :
    (Firestore.google_calendar_credentials db key now resp).result = Except.ok none ∨
    (∃ c, (Firestore.google_calendar_credentials db key now resp).result =
      Except.ok (some c)) ∨
    (Firestore.google_calendar_credentials db key now resp).result =
      Except.error StoreError.valueError := by
  unfold Firestore.google_calendar_credentials Firestore.user
  rcases h1 : lookupKey db.users key with _ | u
  · simp [h1]
  · rcases h2 : lookupKey u "google_calendar_credentials" with _ | v
    · simp [h1, h2]
    · rcases v with n | g | s
      · simp [h1, h2, OAuth2Credentials.from_json]
      · simp [h1, h2, OAuth2Credentials.from_json]
      · by_cases hb : s.invalid
        · rcases resp with ⟨a, rt, e⟩ | msg <;>
            simp [h1, h2, OAuth2Credentials.from_json, hb,
              OAuth2Credentials.access_token_expired, OAuth2Credentials.refresh]
        · simp [h1, h2, OAuth2Credentials.from_json, hb]

/-- Case analysis helper: the same trichotomy for `locked_get`. -/
theorem locked_get_result_cases (s : GoogleCalendarStorage) (db : Firestore)
    (now : Nat) (resp : RefreshResponse) :
    (s.locked_get db now resp).result = Except.ok none ∨
    (∃ c, (s.locked_get db now resp).result = Except.ok (some c)) ∨
    (s.locked_get db now resp).result = Except.error StoreError.valueError := by
  unfold GoogleCalendarStorage.locked_get
  rcases google_calendar_credentials_result_cases db s.key now resp with h | ⟨c, h⟩ | h <;>
    simp [h]

/-- C6: `_api_key` raises `DataError` (Missing Data) exactly when no
`api_keys` document exists for the service; when the document exists
with its `api_key` field it returns exactly the stored value.  And the
Missing Data error is not raised elsewhere: the credential path
(`google_calendar_credentials` / `locked_get`) can never produce a
`DataError` (the remaining operations are total and raise nothing; the
only other raiser, `google_calendar_secrets`, is the OAuth-client-secret
lookup the claim permits). -/
theorem api_key_missing_data (db : Firestore) (service : String) :
    ((∃ m, Firestore._api_key db service = Except.error (StoreError.dataError m)) ↔
      lookupKey db.api_keys service = none) ∧
    (∀ doc v, lookupKey db.api_keys service = some doc →
      lookupKey doc "api_key" = some v →
      Firestore._api_key db service = Except.ok v) ∧
    (∀ key now resp m,
      (Firestore.google_calendar_credentials db key now resp).result ≠
        Except.error (StoreError.dataError m)) ∧
    (∀ s now resp m,
      (GoogleCalendarStorage.locked_get s db now resp).result ≠
        Except.error (StoreError.dataError m)) := by
  refine ⟨?_, ?_, ?_, ?_⟩
  · rcases h : lookupKey db.api_keys service with _ | doc
    · simp [Firestore._api_key, h]
    · rcases h2 : lookupKey doc "api_key" with _ | v <;>
        simp [Firestore._api_key, h, h2]
  · intro doc v hdoc hfield
    simp [Firestore._api_key, hdoc, hfield]
  · intro key now resp m
    rcases google_calendar_credentials_result_cases db key now resp with h | ⟨c, h⟩ | h <;>
      simp [h]
  · intro s now resp m
    rcases locked_get_result_cases s db now resp with h | ⟨c, h⟩ | h <;>
      simp [h]

/-- C6 witness: the theorem applied to a store holding one Google Maps
API key, returning exactly the stored string. -/
theorem api_key_missing_data_witness :
    Firestore._api_key ⟨[("google_maps", [("api_key", Value.str "KEY")])], [], []⟩
      "google_maps" = Except.ok (Value.str "KEY") :=
  (api_key_missing_data ⟨[("google_maps", [("api_key", Value.str "KEY")])], [], []⟩
      "google_maps").2.1 [("api_key", Value.str "KEY")] (Value.str "KEY") rfl rfl

/-- C7: `update_user` on a key with no user document is a no-op that
logs an error: the operation is total (nothing is raised), no document
is created, and the store is returned unchanged, whatever the update
payload. -/
theorem update_user_missing_noop (db : Firestore) (key : String)
    (fields : List (String × FieldOp))
    (hu : lookupKey db.users key = none) :
    Firestore.update_user db key fields =
      (db, [(LogLevel.error, "User not found for update.")]) := by
  simp [Firestore.update_user, hu]

/-- C7 witness: the theorem applied to a store without user `ghost`. -/
theorem update_user_missing_noop_witness :
    Firestore.update_user ⟨[], [], [("u", [("n", Value.nat 3)])]⟩ "ghost"
        [("a", FieldOp.set (Value.nat 1))] =
      (⟨[], [], [("u", [("n", Value.nat 3)])]⟩,
       [(LogLevel.error, "User not found for update.")]) :=
  update_user_missing_noop ⟨[], [], [("u", [("n", Value.nat 3)])]⟩ "ghost"
    [("a", FieldOp.set (Value.nat 1))] rfl

/-- Merging leaves every field that the merge payload does not mention
untouched. -/
theorem lookupKey_mergeFields_absent (data : Fields) (old : Fields) (f : String)
    (h : lookupKey data f = none) :
    lookupKey (mergeFields old data) f = lookupKey old f := by
  induction data generalizing old with
  | nil => simp [mergeFields]
  | cons hd tl ih =>
    obtain ⟨k, v⟩ := hd
    have hk : ¬ k = f := by
      intro hh
      simp [lookupKey, hh] at h
    have htl : lookupKey tl f = none := by
      simpa [lookupKey, hk] using h
    have hstep : mergeFields old ((k, v) :: tl) = mergeFields (insertKey old k v) tl := by
      simp [mergeFields]
    rw [hstep, ih (insertKey old k v) htl,
      lookupKey_insertKey_ne old k f v (fun hh => hk hh.symm)]

/-- After `set_user`, the user document holds the old fields (an absent
document counting as empty) merged with the payload. -/
theorem lookupKey_set_user_self (db : Firestore) (key : String) (data : Fields) :
    lookupKey (Firestore.set_user db key data).users key =
      some (mergeFields ((lookupKey db.users key).getD []) data) := by
  rcases h : lookupKey db.users key with _ | u <;>
    simp [Firestore.set_user, h, lookupKey_insertKey_self]

/-- C8: `set_user` merge-writes the payload into the user document,
creating the document when absent, and leaves every field the payload
does not mention untouched; in particular `set_user(key, a=1)` followed
by `set_user(key, b=2)` leaves both `a` and `b` on the record (over any
starting store), and other user documents are untouched. -/
theorem set_user_merge (db : Firestore) (key : String) (data : Fields) :
    (∀ u, lookupKey db.users key = some u →
      lookupKey (Firestore.set_user db key data).users key = some (mergeFields u data) ∧
      ∀ f, lookupKey data f = none →
        lookupKey (mergeFields u data) f = lookupKey u f) ∧
    (lookupKey db.users key = none →
      lookupKey (Firestore.set_user db key data).users key = some (mergeFields [] data)) ∧
    (∀ k2, k2 ≠ key →
      lookupKey (Firestore.set_user db key data).users k2 = lookupKey db.users k2) ∧
    (∃ u2,
      lookupKey (Firestore.set_user (Firestore.set_user db key [("a", Value.nat 1)]) key
          [("b", Value.nat 2)]).users key = some u2 ∧
      lookupKey u2 "a" = some (Value.nat 1) ∧
      lookupKey u2 "b" = some (Value.nat 2)) := by
  refine ⟨?_, ?_, ?_, ?_⟩
  · intro u hu
    refine ⟨?_, fun f hf => lookupKey_mergeFields_absent data u f hf⟩
    simp [Firestore.set_user, hu, lookupKey_insertKey_self]
  · intro hu
    simp [Firestore.set_user, hu, lookupKey_insertKey_self]
  · intro k2 hk2
    rcases h : lookupKey db.users key with _ | u <;>
      simp [Firestore.set_user, h, lookupKey_insertKey_ne db.users key k2 _ hk2]
  · refine ⟨insertKey (insertKey ((lookupKey db.users key).getD []) "a" (Value.nat 1))
      "b" (Value.nat 2), ?_, ?_, ?_⟩
    · rw [lookupKey_set_user_self, lookupKey_set_user_self]
      simp [mergeFields]
    · rw [lookupKey_insertKey_ne _ _ _ _ (by decide), lookupKey_insertKey_self]
    · exact lookupKey_insertKey_self _ _ _

/-- C8 witness: the theorem applied to the empty store — the first call
creates the document. -/
theorem set_user_merge_witness :
    lookupKey (Firestore.set_user ⟨[], [], []⟩ "k" [("c", Value.nat 3)]).users "k" =
      some (mergeFields [] [("c", Value.nat 3)]) :=
  (set_user_merge ⟨[], [], []⟩ "k" [("c", Value.nat 3)]).2.1 rfl

/-- C9: for every existing user record,
`delete_google_calendar_credentials` (which `locked_delete` calls
verbatim) removes exactly the `google_calendar_credentials` field via
the `DELETE_FIELD` sentinel: the field is gone, every other field of the
record is unchanged, and every other user document is unchanged. -/
theorem delete_credentials_field (db : Firestore) (key : String) (u : Fields)
    (hu : lookupKey db.users key = some u) :
    Firestore.delete_google_calendar_credentials db key =
      ({ db with users := insertKey db.users key (removeKey u "google_calendar_credentials") },
       []) ∧
    GoogleCalendarStorage.locked_delete ⟨key⟩ db =
      Firestore.delete_google_calendar_credentials db key ∧
    lookupKey (removeKey u "google_calendar_credentials") "google_calendar_credentials" =
      none ∧
    (∀ f, f ≠ "google_calendar_credentials" →
      lookupKey (removeKey u "google_calendar_credentials") f = lookupKey u f) ∧
    (∀ k2, k2 ≠ key →
      lookupKey (insertKey db.users key (removeKey u "google_calendar_credentials")) k2 =
        lookupKey db.users k2) := by
  refine ⟨?_, rfl, lookupKey_removeKey_self u _,
    fun f hf => lookupKey_removeKey_ne u _ f hf,
    fun k2 hk2 => lookupKey_insertKey_ne db.users key k2 _ hk2⟩
  simp [Firestore.delete_google_calendar_credentials, Firestore.update_user, hu, applyFieldOps]

/-- C9 witness: the theorem applied to a concrete record carrying one
extra field next to the credentials. -/
theorem delete_credentials_field_witness :
    Firestore.delete_google_calendar_credentials
        ⟨[], [], [("u", [("n", Value.nat 3), ("google_calendar_credentials",
            Value.blob ⟨"tok", some "rt", some 5, false⟩)])]⟩ "u" =
      (⟨[], [], [("u", [("n", Value.nat 3)])]⟩, []) :=
  (delete_credentials_field
      ⟨[], [], [("u", [("n", Value.nat 3), ("google_calendar_credentials",
          Value.blob ⟨"tok", some "rt", some 5, false⟩)])]⟩ "u"
      [("n", Value.nat 3), ("google_calendar_credentials",
          Value.blob ⟨"tok", some "rt", some 5, false⟩)] rfl).1

/-- C10: when the user record exists but carries no
`google_calendar_credentials` field, `locked_get` returns null after the
caught `KeyError`, performs no write or deletion — the store it returns
is the store it was given — and only logs the warning. -/
theorem locked_get_absent_field_no_write (db : Firestore) (key : String) (u : Fields)
    (now : Nat) (resp : RefreshResponse)
    (hu : lookupKey db.users key = some u)
    (hf : lookupKey u "google_calendar_credentials" = none) :
    (GoogleCalendarStorage.locked_get ⟨key⟩ db now resp).result = Except.ok none ∧
    (GoogleCalendarStorage.locked_get ⟨key⟩ db now resp).db = db ∧
    (GoogleCalendarStorage.locked_get ⟨key⟩ db now resp).logs =
      [(LogLevel.warning, "Failed to load Google Calendar credentials.")] := by
  refine ⟨?_, ?_, ?_⟩ <;>
    simp [GoogleCalendarStorage.locked_get, Firestore.google_calendar_credentials,
      Firestore.user, hu, hf]

/-- C10 witness: the theorem applied to a concrete record with
application data but no credential field. -/
theorem locked_get_absent_field_no_write_witness :
    (GoogleCalendarStorage.locked_get ⟨"u"⟩ ⟨[], [], [("u", [("n", Value.nat 3)])]⟩
        7 (RefreshResponse.failure "boom")).db = ⟨[], [], [("u", [("n", Value.nat 3)])]⟩ :=
  (locked_get_absent_field_no_write ⟨[], [], [("u", [("n", Value.nat 3)])]⟩ "u"
      [("n", Value.nat 3)] 7 (RefreshResponse.failure "boom") rfl rfl).2.1

end FirestorePy
